import Mathlib

/-!
Verification of the libNidResolver specification against its interface.

The repository ships the public interface in src/include/nid_resolver/resolver.h
(the C functions create_resolver, init_resolver, destroy_resolver, move_resolver,
reserve_library_memory, add_library, add_library_metadata, lookup_symbol and the
C++ ManagedResolver wrapper). The C translation unit implementing these
functions is not part of the sources, so the resolver's behaviour is modelled
from the specification text (sections 3 and 4 of spec.md); the ManagedResolver
wrapper's length-handling is taken directly from the header, where it is
defined inline.

Addresses (uintptr_t) and symbol fields are modelled as Nat; a C string or a
string table is a list of byte values; NULL pointers are modelled with Option.
Every operation is a pure state transformer returning a status (the C int,
0 = success) together with the post-state.
-/

namespace NidResolver

/-- Modelled from the spec: the error taxonomy of section 7 of spec.md; the
missing C implementation returns these as distinct non-zero int codes, with
0 reserved for success. -/
inductive Status where
  | ok
  | notReserved
  | alreadyReserved
  | capacityExceeded
  | invalidArgument
  | remoteRead
  | malformedMetadata
deriving DecidableEq

/-- Modelled from the spec: the concrete int value carried across the C
boundary; success is exactly 0, every error kind is non-zero. -/
def Status.code : Status → Nat
  | .ok => 0
  | .notReserved => 1
  | .alreadyReserved => 2
  | .capacityExceeded => 3
  | .invalidArgument => 4
  | .remoteRead => 5
  | .malformedMetadata => 6

/-- One record of a library's symbol table (Elf64_Sym in the header): a name
reference (offset into the string table), a value (offset from the image
base), a size and a classification field. -/
structure Elf64_Sym where
  st_name : Nat
  st_value : Nat
  st_size : Nat
  st_info : Nat
deriving DecidableEq

/-- A string table: a blob of bytes holding null-terminated strings referenced
by offset. -/
abbrev StrTab := List Nat

/-- Modelled from the spec: one registered library (section 3 of spec.md) —
an image base, its symbol entry sequence and its string table. -/
structure Library where
  imagebase : Nat
  symtab : List Elf64_Sym
  strtab : StrTab
deriving DecidableEq

/-- Modelled from the spec: the resolver state (section 3 of spec.md) — an
optional one-shot reservation capacity and the ordered sequence of registered
libraries (insertion order = registration order); the used count is the length
of that sequence. The missing C implementation stores this behind the three
opaque words of the Resolver struct in resolver.h. -/
structure Resolver where
  reserved : Option Nat
  libraries : List Library
deriving DecidableEq

/-- Modelled from the spec: create_resolver produces an empty resolver with
zero used and reserved counts; it always succeeds. -/
def create_resolver : Resolver := ⟨none, []⟩

/-- Modelled from the spec: init_resolver initializes a resolver object to the
same empty state as create_resolver. -/
def init_resolver (_self : Resolver) : Resolver := create_resolver

/-- Modelled from the spec: destroy_resolver releases the resolver-owned
storage; in the pure model the post-state is the empty resolver. -/
def destroy_resolver (_self : Resolver) : Resolver := create_resolver

/-- Modelled from the spec: move_resolver transfers ownership of the source's
reservation and registered libraries to the destination and leaves the source
as a valid, empty, safely-destructible resolver (used and reserved counts both
zero). The first component is the new destination, the second the moved-from
source. -/
def move_resolver (_self : Resolver) (rhs : Resolver) : Resolver × Resolver :=
  (rhs, create_resolver)

/-- Modelled from the spec: reserve_library_memory performs the one-shot
reservation of capacity for exactly n libraries; calling it twice on the same
instance fails with AlreadyReservedError. Allocation of the backing storage is
assumed to succeed in the model. -/
def reserve_library_memory (self : Resolver) (num_libraries : Nat) : Status × Resolver :=
  match self.reserved with
  | some _ => (Status.alreadyReserved, self)
  | none => (Status.ok, { self with reserved := some num_libraries })

/-- Modelled from the spec: resolve a symbol entry's name by reading the
string table from the given offset up to the implicit null terminator;
an out-of-range offset is a parse error (none), not undefined behavior. -/
def symName (strtab : StrTab) (off : Nat) : Option (List Nat) :=
  if off ≤ strtab.length then some ((strtab.drop off).takeWhile (fun b => b ≠ 0)) else none

/-- A symbol entry matches a query name when its name resolves, via the
library's string table, to exactly the query bytes. -/
def matchesName (strtab : StrTab) (e : Elf64_Sym) (q : List Nat) : Bool :=
  symName strtab e.st_name == some q

/-- A library contains a name when some entry of its symbol table matches it. -/
def containsName (lib : Library) (q : List Nat) : Bool :=
  lib.symtab.any (fun e => matchesName lib.strtab e q)

/-- Modelled from the spec: query one library's index for a name; the first
matching entry in symbol-table order supplies the resolved address
image base + value. -/
def lookup_in_library (lib : Library) (q : List Nat) : Option Nat :=
  (lib.symtab.find? (fun e => matchesName lib.strtab e q)).map
    (fun e => lib.imagebase + e.st_value)

/-- Modelled from the spec: scan the registered libraries in registration
order and return the first resolved address, or the sentinel 0 when no
library contains the name. -/
def lookupScan (q : List Nat) : List Library → Nat
  | [] => 0
  | lib :: rest =>
    match lookup_in_library lib q with
    | some a => a
    | none => lookupScan q rest

/-- Modelled from the spec: lookup_symbol interprets the query per the
(pointer, length) contract — the first length bytes of sym — scans the
registered libraries in registration order and returns the first resolved
address, 0 when absent. The resolver is taken by const pointer in the header;
the state component of the result is the (unchanged) post-state. -/
def lookup_symbol (self : Resolver) (sym : List Nat) (length : Nat) : Nat × Resolver :=
  (lookupScan (sym.take length) self.libraries, self)

/-- Modelled from the spec: add_library validates its inputs (section 4.1 of
spec.md: image base, symbol table pointer and string table pointer must all be
non-null/non-zero unless the entry count is zero), fails with NotReservedError
before reservation and with CapacityExceededError when the used count equals
the reserved capacity, and on success appends the library, making it
discoverable by subsequent lookups immediately. NULL table pointers are
modelled as none. -/
def add_library (self : Resolver) (imagebase : Nat) (symtab : Option (List Elf64_Sym))
    (strtab : Option StrTab) : Status × Resolver :=
  match self.reserved with
  | none => (Status.notReserved, self)
  | some cap =>
    if self.libraries.length = cap then (Status.capacityExceeded, self)
    else if (symtab.getD []).length ≠ 0 ∧ (imagebase = 0 ∨ symtab = none ∨ strtab = none) then
      (Status.invalidArgument, self)
    else
      (Status.ok, { self with
        libraries := self.libraries ++ [⟨imagebase, symtab.getD [], strtab.getD []⟩] })

/-- Modelled from the spec: the fixed-layout remote metadata record — the
remote symbol table address, the entry count and the remote string table
address. -/
structure Metadata where
  symtab_addr : Nat
  symtab_length : Nat
  strtab_addr : Nat
deriving DecidableEq

/-- Modelled from the spec: the injected remote read primitive (capability
boundary, section 4.2 of spec.md), presented per fetched object: the metadata
record at an address, a symbol table of a given entry count, and a string
table. Each fetch is fallible; none models a failed read. -/
structure RemoteReader where
  readMeta : Nat → Option Metadata
  readSymtab : Nat → Nat → Option (List Elf64_Sym)
  readStrtab : Nat → Option StrTab

/-- Modelled from the spec: the sane bound on a fetched entry count beyond
which the metadata record's implied sizes are considered inconsistent. -/
def saneBound : Nat := 2 ^ 48

/-- Modelled from the spec: add_library_metadata fails with NotReservedError
before reservation, then delegates to the remote metadata loader — a failed or
short read yields RemoteReadError, an insane entry count yields
MalformedMetadataError — and finally proceeds as add_library with the
recovered view. Every failure leaves the resolver state unchanged. -/
def add_library_metadata (reader : RemoteReader) (self : Resolver) (imagebase : Nat)
    (app_meta : Nat) : Status × Resolver :=
  if self.reserved.isNone then (Status.notReserved, self)
  else
    match reader.readMeta app_meta with
    | none => (Status.remoteRead, self)
    | some m =>
      if saneBound < m.symtab_length then (Status.malformedMetadata, self)
      else
        match reader.readSymtab m.symtab_addr m.symtab_length,
              reader.readStrtab m.strtab_addr with
        | some st, some str =>
          if st.length < m.symtab_length then (Status.remoteRead, self)
          else add_library self imagebase (some st) (some str)
        | some _, none => (Status.remoteRead, self)
        | none, _ => (Status.remoteRead, self)

/-- The number of bytes of a C string before its null terminator, as computed
by strlen in the ManagedResolver wrapper. -/
def strlen (s : List Nat) : Nat := (s.takeWhile (fun b => b ≠ 0)).length

/-- The inline C++ wrapper ManagedResolver::lookup_symbol from resolver.h:
when called with length 0 it measures the null-terminated name with strlen
before delegating to the C lookup_symbol. -/
def ManagedResolver.lookup_symbol (self : Resolver) (sym : List Nat) (length : Nat) :
    Nat × Resolver :=
  if length = 0 then NidResolver.lookup_symbol self sym (strlen sym)
  else NidResolver.lookup_symbol self sym length

/-- A (image base, symbol table, string table) triple passed to add_library
with non-null table pointers. -/
abbrev Triple := Nat × List Elf64_Sym × StrTab

/-- The library a successful add_library call appends for a triple. -/
def mkLib (t : Triple) : Library := ⟨t.1, t.2.1, t.2.2⟩

/-- Validity of a triple per section 4.1 of spec.md, given non-null table
pointers: either the entry count is zero or the image base is non-zero. -/
def validTriple (t : Triple) : Prop := t.2.1 = [] ∨ t.1 ≠ 0

instance (t : Triple) : Decidable (validTriple t) := by
  unfold validTriple; infer_instance

/-- Perform a sequence of add_library calls, collecting the returned statuses
and threading the resolver state. -/
def addAll : Resolver → List Triple → List Status × Resolver
  | r, [] => ([], r)
  | r, t :: ts =>
    ((add_library r t.1 (some t.2.1) (some t.2.2)).1 ::
        (addAll (add_library r t.1 (some t.2.1) (some t.2.2)).2 ts).1,
      (addAll (add_library r t.1 (some t.2.1) (some t.2.2)).2 ts).2)

/-- The resolver obtained by reserving capacity n on a fresh resolver and then
performing the given add_library calls. -/
def buildResolver (n : Nat) (ts : List Triple) : Resolver :=
  (addAll (reserve_library_memory create_resolver n).2 ts).2

/-- The statuses returned by the add_library calls of buildResolver. -/
def buildStatuses (n : Nat) (ts : List Triple) : List Status :=
  (addAll (reserve_library_memory create_resolver n).2 ts).1

/-- Resolver states reachable by any sequence of create, reserve, add_library,
add_library_metadata, lookup_symbol and move operations. -/
inductive Reachable : Resolver → Prop
  | create : Reachable create_resolver
  | reserve (r : Resolver) (n : Nat) : Reachable r →
      Reachable (reserve_library_memory r n).2
  | add (r : Resolver) (b : Nat) (st : Option (List Elf64_Sym)) (str : Option StrTab) :
      Reachable r → Reachable (add_library r b st str).2
  | addMeta (reader : RemoteReader) (r : Resolver) (b a : Nat) :
      Reachable r → Reachable (add_library_metadata reader r b a).2
  | lookup (r : Resolver) (sym : List Nat) (len : Nat) :
      Reachable r → Reachable (lookup_symbol r sym len).2
  | moveDest (d s : Resolver) : Reachable d → Reachable s →
      Reachable (move_resolver d s).1
  | moveSrc (d s : Resolver) : Reachable d → Reachable s →
      Reachable (move_resolver d s).2

/-- A remote reader whose injected read primitive fails on every request. -/
def failingReader : RemoteReader := ⟨fun _ => none, fun _ _ => none, fun _ => none⟩

/-- String table holding the single name foo at offset 1. -/
def fooStrtab : StrTab := [0, 102, 111, 111, 0]

/-- String table holding the single name bar at offset 1. -/
def barStrtab : StrTab := [0, 98, 97, 114, 0]

/-- The add_library triple of the spec scenario: image base 0x1000, one symbol
foo with value 0x10. -/
def fooTriple : Triple := (4096, [⟨1, 16, 0, 0⟩], fooStrtab)

/-- The add_library triple of the spec scenario: image base 0x2000, one symbol
bar with value 0x20. -/
def barTriple : Triple := (8192, [⟨1, 32, 0, 0⟩], barStrtab)

/-- The two libraries of the spec scenario, in registration order. -/
def sampleTriples : List Triple := [fooTriple, barTriple]

/-- The query bytes of the name foo. -/
def fooName : List Nat := [102, 111, 111]

/-- The query bytes of the name bar. -/
def barName : List Nat := [98, 97, 114]

/-- The query bytes of the name baz, absent from every sample library. -/
def bazName : List Nat := [98, 97, 122]

/-- String table holding bar at offset 5 and foo at offset 1. -/
def dupStrtab : StrTab := [0, 102, 111, 111, 0, 98, 97, 114, 0]

/-- A library whose symbol table holds a non-matching entry first, then two
entries both named foo with distinct values 16 and 153. -/
def dupLib : Library := ⟨4096, [⟨5, 1, 0, 0⟩, ⟨1, 16, 0, 0⟩, ⟨1, 153, 0, 0⟩], dupStrtab⟩

/-- A second registered library that also defines foo, with value 7. -/
def dupLib2 : Library := ⟨8192, [⟨1, 7, 0, 0⟩], fooStrtab⟩

/-- A resolver holding dupLib then dupLib2, for duplicate-name lookups. -/
def dupResolver : Resolver := ⟨some 2, [dupLib, dupLib2]⟩

theorem lookup_in_library_eq_none (lib : Library) (q : List Nat)
    (h : containsName lib q = false) : lookup_in_library lib q = none := by
  unfold lookup_in_library
  have hfind : lib.symtab.find? (fun e => matchesName lib.strtab e q) = none := by
    rw [List.find?_eq_none]
    intro e he hm
    exact List.any_eq_false.mp h e he hm
  rw [hfind]
  rfl

theorem lookupScan_eq_zero_of_absent (q : List Nat) (libs : List Library)
    (h : ∀ lib ∈ libs, containsName lib q = false) : lookupScan q libs = 0 := by
  induction libs with
  | nil => rfl
  | cons lib rest ih =>
    have hnone := lookup_in_library_eq_none lib q (h lib (List.mem_cons_self lib rest))
    rw [lookupScan, hnone]
    exact ih (fun l hl => h l (List.mem_cons_of_mem lib hl))

theorem lookupScan_present (q : List Nat) (libs : List Library)
    (h : ∃ lib ∈ libs, containsName lib q = true) :
    ∃ lib ∈ libs, ∃ e ∈ lib.symtab, symName lib.strtab e.st_name = some q ∧
      lookupScan q libs = lib.imagebase + e.st_value := by
  induction libs with
  | nil => simp at h
  | cons lib rest ih =>
    cases hfind : lib.symtab.find? (fun e => matchesName lib.strtab e q) with
    | some e =>
      have he : e ∈ lib.symtab := List.mem_of_find?_eq_some hfind
      have hm : matchesName lib.strtab e q = true := by
        simpa using List.find?_some hfind
      have hn : symName lib.strtab e.st_name = some q := by
        unfold matchesName at hm
        exact eq_of_beq hm
      refine ⟨lib, List.mem_cons_self lib rest, e, he, hn, ?_⟩
      rw [lookupScan]
      unfold lookup_in_library
      rw [hfind]
      rfl
    | none =>
      have hcontains : containsName lib q = false := by
        unfold containsName
        rw [List.any_eq_false]
        intro e he
        exact fun hm => by
          have := List.find?_eq_none.mp hfind e he
          exact this hm
      have hrest : ∃ l ∈ rest, containsName l q = true := by
        obtain ⟨l, hl, hc⟩ := h
        rcases List.mem_cons.mp hl with heq | hmem
        · rw [heq, hcontains] at hc; exact absurd hc (by simp)
        · exact ⟨l, hmem, hc⟩
      obtain ⟨l, hl, e, he, hn, heq⟩ := ih hrest
      refine ⟨l, List.mem_cons_of_mem lib hl, e, he, hn, ?_⟩
      rw [lookupScan, lookup_in_library_eq_none lib q hcontains]
      exact heq

theorem lookupScan_append_absent (q : List Nat) (pre rest : List Library)
    (h : ∀ l ∈ pre, containsName l q = false) :
    lookupScan q (pre ++ rest) = lookupScan q rest := by
  induction pre with
  | nil => rfl
  | cons lib tl ih =>
    rw [List.cons_append, lookupScan,
      lookup_in_library_eq_none lib q (h lib (List.mem_cons_self lib tl))]
    exact ih (fun l hl => h l (List.mem_cons_of_mem lib hl))

theorem find?_first_of_prefix_neg {α : Type} (p : α → Bool) (pre post : List α) (e : α)
    (hpre : ∀ x ∈ pre, p x = false) (he : p e = true) :
    (pre ++ e :: post).find? p = some e := by
  induction pre with
  | nil => simp [List.find?_cons, he]
  | cons a t ih =>
    rw [List.cons_append, List.find?_cons_of_neg]
    · exact ih (fun x hx => hpre x (List.mem_cons_of_mem a hx))
    · simp [hpre a (List.mem_cons_self a t)]

theorem add_library_unreserved (r : Resolver) (b : Nat) (st : Option (List Elf64_Sym))
    (str : Option StrTab) (h : r.reserved = none) :
    add_library r b st str = (Status.notReserved, r) := by
  unfold add_library
  rw [h]

theorem add_library_metadata_unreserved (reader : RemoteReader) (r : Resolver) (b a : Nat)
    (h : r.reserved = none) :
    add_library_metadata reader r b a = (Status.notReserved, r) := by
  unfold add_library_metadata
  rw [h]
  rfl

theorem add_library_reserved (r : Resolver) (b : Nat) (st : Option (List Elf64_Sym))
    (str : Option StrTab) : (add_library r b st str).2.reserved = r.reserved := by
  obtain ⟨res, libs⟩ := r
  unfold add_library
  cases res with
  | none => rfl
  | some cap =>
    simp only []
    split
    · rfl
    · split <;> rfl

theorem add_library_metadata_cases (reader : RemoteReader) (r : Resolver) (b a : Nat) :
    (add_library_metadata reader r b a).2 = r ∨
    ∃ st str, add_library_metadata reader r b a = add_library r b (some st) (some str) := by
  unfold add_library_metadata
  split
  · left; rfl
  · cases hm : reader.readMeta a with
    | none => left; rfl
    | some m =>
      simp only []
      split
      · left; rfl
      · cases hst : reader.readSymtab m.symtab_addr m.symtab_length with
        | none => left; rfl
        | some st =>
          cases hstr : reader.readStrtab m.strtab_addr with
          | none => left; rfl
          | some str =>
            simp only []
            split
            · left; rfl
            · right; exact ⟨st, str, rfl⟩

theorem add_library_metadata_reserved (reader : RemoteReader) (r : Resolver) (b a : Nat) :
    (add_library_metadata reader r b a).2.reserved = r.reserved := by
  rcases add_library_metadata_cases reader r b a with h | ⟨st, str, h⟩
  · rw [h]
  · rw [h]
    exact add_library_reserved r b (some st) (some str)

theorem add_library_inv (r : Resolver) (b : Nat) (st : Option (List Elf64_Sym))
    (str : Option StrTab) (ih : r.libraries.length ≤ r.reserved.getD 0) :
    (add_library r b st str).2.libraries.length ≤
      (add_library r b st str).2.reserved.getD 0 := by
  rw [add_library_reserved]
  unfold add_library
  cases hr : r.reserved with
  | none => rw [hr] at ih; exact ih
  | some cap =>
    rw [hr] at ih
    simp only [Option.getD_some] at ih ⊢
    split
    · exact ih
    · split
      · exact ih
      · rename_i hne _
        simp only [List.length_append, List.length_cons, List.length_nil]
        omega

theorem reachable_inv (r : Resolver) (h : Reachable r) :
    r.libraries.length ≤ r.reserved.getD 0 := by
  induction h with
  | create => simp [create_resolver]
  | reserve r n _ ih =>
    unfold reserve_library_memory
    cases hr : r.reserved with
    | none =>
      rw [hr] at ih
      simp only [Option.getD_none, Nat.le_zero] at ih
      simp [ih]
    | some cap => exact ih
  | add r b st str _ ih => exact add_library_inv r b st str ih
  | addMeta reader r b a _ ih =>
    rcases add_library_metadata_cases reader r b a with heq | ⟨st, str, heq⟩
    · rw [heq]; exact ih
    · rw [heq]; exact add_library_inv r b (some st) (some str) ih
  | lookup r sym len _ ih => exact ih
  | moveDest d s _ _ _ ihs => exact ihs
  | moveSrc d s _ _ _ _ => simp [move_resolver, create_resolver]

theorem add_library_valid_ok (r : Resolver) (t : Triple) (cap : Nat)
    (hres : r.reserved = some cap) (hlt : r.libraries.length < cap) (hv : validTriple t) :
    add_library r t.1 (some t.2.1) (some t.2.2) =
      (Status.ok, { r with libraries := r.libraries ++ [mkLib t] }) := by
  unfold add_library
  rw [hres]
  simp only []
  rw [if_neg (Nat.ne_of_lt hlt)]
  rw [if_neg ?hvalid]
  case hvalid =>
    rintro ⟨h1, h2⟩
    rcases h2 with hb | hn | hn
    · rcases hv with hnil | hb0
      · rw [hnil] at h1; exact h1 rfl
      · exact hb0 hb
    · exact Option.noConfusion hn
    · exact Option.noConfusion hn
  rfl

theorem add_library_full (r : Resolver) (b : Nat) (st : Option (List Elf64_Sym))
    (str : Option StrTab) (cap : Nat) (hres : r.reserved = some cap)
    (heq : r.libraries.length = cap) :
    add_library r b st str = (Status.capacityExceeded, r) := by
  unfold add_library
  rw [hres]
  simp only []
  rw [if_pos heq]

theorem add_library_ok_state (r : Resolver) (b : Nat) (st : Option (List Elf64_Sym))
    (str : Option StrTab) (h : (add_library r b st str).1 = Status.ok) :
    (add_library r b st str).2 =
      { r with libraries := r.libraries ++ [⟨b, st.getD [], str.getD []⟩] } := by
  obtain ⟨res, libs⟩ := r
  unfold add_library at h ⊢
  cases res with
  | none => simp at h
  | some cap =>
    simp only [] at h ⊢
    by_cases h1 : List.length libs = cap
    · rw [if_pos h1] at h; simp at h
    · rw [if_neg h1] at h ⊢
      by_cases h2 : (st.getD []).length ≠ 0 ∧ (b = 0 ∨ st = none ∨ str = none)
      · rw [if_pos h2] at h; simp at h
      · rw [if_neg h2]

theorem addAll_ok (ts : List Triple) (r : Resolver) (cap : Nat)
    (hres : r.reserved = some cap) (hle : r.libraries.length + ts.length ≤ cap)
    (hv : ∀ t ∈ ts, validTriple t) :
    addAll r ts = (List.replicate ts.length Status.ok,
      { r with libraries := r.libraries ++ ts.map mkLib }) := by
  induction ts generalizing r with
  | nil => simp [addAll]
  | cons t ts ih =>
    have hlt : r.libraries.length < cap := by
      simp only [List.length_cons] at hle
      omega
    simp only [addAll]
    rw [add_library_valid_ok r t cap hres hlt (hv t (List.mem_cons_self t ts))]
    rw [ih { r with libraries := r.libraries ++ [mkLib t] } ?hres2 ?hle2 ?hv2]
    case hres2 => exact hres
    case hle2 =>
      simp only [List.length_append, List.length_cons] at hle ⊢
      simp only [List.length_cons, List.length_nil]
      omega
    case hv2 => exact fun x hx => hv x (List.mem_cons_of_mem t hx)
    simp [List.replicate_succ, List.append_assoc]

theorem addAll_append (a b : List Triple) (r : Resolver) :
    addAll r (a ++ b) = ((addAll r a).1 ++ (addAll (addAll r a).2 b).1,
      (addAll (addAll r a).2 b).2) := by
  induction a generalizing r with
  | nil => simp [addAll]
  | cons t a ih =>
    simp only [List.cons_append, addAll, List.append_eq]
    rw [ih]

theorem addAll_all_ok_libraries (ts : List Triple) (r : Resolver)
    (h : ∀ s ∈ (addAll r ts).1, s = Status.ok) :
    (addAll r ts).2.libraries = r.libraries ++ ts.map mkLib := by
  induction ts generalizing r with
  | nil => simp [addAll]
  | cons t ts ih =>
    simp only [addAll] at h ⊢
    have hok : (add_library r t.1 (some t.2.1) (some t.2.2)).1 = Status.ok :=
      h _ (List.mem_cons_self _ _)
    have hstate := add_library_ok_state r t.1 (some t.2.1) (some t.2.2) hok
    have htail : ∀ s ∈ (addAll (add_library r t.1 (some t.2.1) (some t.2.2)).2 ts).1,
        s = Status.ok := fun s hs => h s (List.mem_cons_of_mem _ hs)
    rw [ih _ htail, hstate]
    simp [mkLib, List.append_assoc]

/-- C1: for a resolver on which the reservation succeeded and on which every
add_library call with valid (image base, symtab, strtab) triples succeeded,
the registered libraries are exactly those triples in registration order,
lookup_symbol returns image base + value of a matching symbol entry for every
name present in a registered library, and returns the sentinel 0 for any name
absent from all registered libraries. -/
theorem c1_lookup_after_build (n : Nat) (ts : List Triple) (sym : List Nat) (len : Nat)
    (hv : ∀ t ∈ ts, validTriple t)
    (hok : ∀ s ∈ buildStatuses n ts, s = Status.ok) :
    (buildResolver n ts).libraries = ts.map mkLib ∧
    ((∃ lib ∈ (buildResolver n ts).libraries, containsName lib (sym.take len) = true) →
      ∃ lib ∈ (buildResolver n ts).libraries, ∃ e ∈ lib.symtab,
        symName lib.strtab e.st_name = some (sym.take len) ∧
        (lookup_symbol (buildResolver n ts) sym len).1 = lib.imagebase + e.st_value) ∧
    ((∀ lib ∈ (buildResolver n ts).libraries, containsName lib (sym.take len) = false) →
      (lookup_symbol (buildResolver n ts) sym len).1 = 0) := by
  refine ⟨?_, ?_, ?_⟩
  · have h := addAll_all_ok_libraries ts (reserve_library_memory create_resolver n).2 hok
    simpa [buildResolver] using h
  · intro h
    exact lookupScan_present (sym.take len) (buildResolver n ts).libraries h
  · intro h
    exact lookupScan_eq_zero_of_absent (sym.take len) (buildResolver n ts).libraries h

/-- Witness for C1: the spec scenario — reserve 2, register foo at 0x1000+0x10
and bar at 0x2000+0x20; the query foo resolves to a matching entry's
image base + value and the absent name baz yields 0. -/
theorem c1_witness :
    ((∀ t ∈ sampleTriples, validTriple t) ∧
      (∀ s ∈ buildStatuses 2 sampleTriples, s = Status.ok)) ∧
    (buildResolver 2 sampleTriples).libraries = sampleTriples.map mkLib ∧
    (∃ lib ∈ (buildResolver 2 sampleTriples).libraries, ∃ e ∈ lib.symtab,
      symName lib.strtab e.st_name = some (fooName.take 3) ∧
      (lookup_symbol (buildResolver 2 sampleTriples) fooName 3).1 =
        lib.imagebase + e.st_value) ∧
    (lookup_symbol (buildResolver 2 sampleTriples) bazName 3).1 = 0 :=
  ⟨⟨by decide, by decide⟩,
   (c1_lookup_after_build 2 sampleTriples fooName 3 (by decide) (by decide)).1,
   (c1_lookup_after_build 2 sampleTriples fooName 3 (by decide) (by decide)).2.1 (by decide),
   (c1_lookup_after_build 2 sampleTriples bazName 3 (by decide) (by decide)).2.2 (by decide)⟩

/-- C2: lookup is deterministically first-match — with the registered
libraries split as pre ++ lib :: post where no library of pre contains the
queried name, and lib's symbol table split as epre ++ e :: epost where no
entry of epre matches and e matches, lookup_symbol returns exactly
lib.imagebase + e.st_value, whatever duplicates epost and post contain. -/
theorem c2_first_match_wins (r : Resolver) (sym : List Nat) (len : Nat)
    (pre post : List Library) (lib : Library) (epre epost : List Elf64_Sym) (e : Elf64_Sym)
    (hlibs : r.libraries = pre ++ lib :: post)
    (hsym : lib.symtab = epre ++ e :: epost)
    (he : symName lib.strtab e.st_name = some (sym.take len))
    (hpre : ∀ l ∈ pre, containsName l (sym.take len) = false)
    (hepre : ∀ x ∈ epre, symName lib.strtab x.st_name ≠ some (sym.take len)) :
    (lookup_symbol r sym len).1 = lib.imagebase + e.st_value := by
  show lookupScan (sym.take len) r.libraries = _
  rw [hlibs, lookupScan_append_absent (sym.take len) pre (lib :: post) hpre]
  have hfind : lib.symtab.find? (fun x => matchesName lib.strtab x (sym.take len)) = some e := by
    rw [hsym]
    apply find?_first_of_prefix_neg
    · intro x hx
      simp only [matchesName, beq_eq_false_iff_ne]
      exact hepre x hx
    · simp only [matchesName, beq_iff_eq]
      exact he
  rw [lookupScan]
  unfold lookup_in_library
  rw [hfind]
  rfl

/-- Witness for C2: a library whose table holds a non-matching entry, then foo
with value 16, then a duplicate foo with value 153, followed by a second
registered library that also defines foo; lookup returns 4096 + 16, the first
occurrence of the first registered library. -/
theorem c2_witness :
    (dupResolver.libraries = [] ++ dupLib :: [dupLib2] ∧
      dupLib.symtab = [⟨5, 1, 0, 0⟩] ++ (⟨1, 16, 0, 0⟩ : Elf64_Sym) :: [⟨1, 153, 0, 0⟩] ∧
      symName dupLib.strtab 1 = some (fooName.take 3) ∧
      containsName dupLib2 (fooName.take 3) = true) ∧
    (lookup_symbol dupResolver fooName 3).1 = dupLib.imagebase + 16 :=
  ⟨⟨by decide, by decide, by decide, by decide⟩,
   c2_first_match_wins dupResolver fooName 3 [] [dupLib2] dupLib
     [⟨5, 1, 0, 0⟩] [⟨1, 153, 0, 0⟩] ⟨1, 16, 0, 0⟩
     (by decide) (by decide) (by decide) (by decide) (by decide)⟩

/-- C3: after reserve_library_memory succeeds with capacity n on a fresh
resolver, of n + 1 add_library calls with valid triples the first n return
the success status (code 0) and the last fails with CapacityExceededError
(non-zero code), for every n. -/
theorem c3_capacity_exhaustion (n : Nat) (pre : List Triple) (t : Triple)
    (hlen : pre.length = n) (hv : ∀ x ∈ pre ++ [t], validTriple x) :
    buildStatuses n (pre ++ [t]) =
      List.replicate n Status.ok ++ [Status.capacityExceeded] ∧
    Status.ok.code = 0 ∧ Status.capacityExceeded.code ≠ 0 := by
  refine ⟨?_, rfl, by decide⟩
  unfold buildStatuses
  have hbase : (reserve_library_memory create_resolver n).2 = ⟨some n, []⟩ := rfl
  rw [addAll_append, hbase]
  have h1 := addAll_ok pre (⟨some n, []⟩ : Resolver) n rfl (by simp [hlen])
    (fun x hx => hv x (List.mem_append_left _ hx))
  rw [h1]
  simp only [List.nil_append]
  simp only [addAll]
  rw [add_library_full (⟨some n, List.map mkLib pre⟩ : Resolver) t.1 (some t.2.1)
    (some t.2.2) n rfl (by simp [hlen])]
  rw [hlen]

/-- Witness for C3: capacity 1, two valid add_library calls — the statuses
are exactly one success followed by CapacityExceededError. -/
theorem c3_witness :
    (([fooTriple] : List Triple).length = 1 ∧
      (∀ x ∈ [fooTriple] ++ [barTriple], validTriple x)) ∧
    (buildStatuses 1 ([fooTriple] ++ [barTriple]) =
        List.replicate 1 Status.ok ++ [Status.capacityExceeded] ∧
      Status.ok.code = 0 ∧ Status.capacityExceeded.code ≠ 0) :=
  ⟨⟨by decide, by decide⟩, c3_capacity_exhaustion 1 [fooTriple] barTriple (by decide) (by decide)⟩

/-- C4: on any resolver with no reservation (as a freshly created one),
add_library and add_library_metadata fail with NotReservedError and leave the
state unchanged, while reserve_library_memory succeeds; on any resolver whose
reservation already succeeded, a second reserve_library_memory call fails with
AlreadyReservedError; both error codes are non-zero. -/
theorem c4_reservation_protocol (r r2 : Resolver) (b a n k : Nat)
    (st : Option (List Elf64_Sym)) (str : Option StrTab) (reader : RemoteReader)
    (h : r.reserved = none) (h2 : (r2.reserved).isSome = true) :
    add_library r b st str = (Status.notReserved, r) ∧
    add_library_metadata reader r b a = (Status.notReserved, r) ∧
    (reserve_library_memory r n).1 = Status.ok ∧
    (reserve_library_memory r2 k).1 = Status.alreadyReserved ∧
    create_resolver.reserved = none ∧
    Status.notReserved.code ≠ 0 ∧ Status.alreadyReserved.code ≠ 0 := by
  refine ⟨add_library_unreserved r b st str h,
    add_library_metadata_unreserved reader r b a h, ?_, ?_, rfl, by decide, by decide⟩
  · unfold reserve_library_memory
    rw [h]
  · unfold reserve_library_memory
    cases hr2 : r2.reserved with
    | none => rw [hr2] at h2; exact absurd h2 (by simp)
    | some cap => rfl

/-- Witness for C4: the fresh resolver has no reservation, and a resolver on
which reserve 1 succeeded has one; the protocol errors follow. -/
theorem c4_witness :
    (create_resolver.reserved = none ∧
      (((reserve_library_memory create_resolver 1).2.reserved).isSome = true)) ∧
    (add_library create_resolver 4096 none none = (Status.notReserved, create_resolver) ∧
      add_library_metadata failingReader create_resolver 4096 16 =
        (Status.notReserved, create_resolver) ∧
      (reserve_library_memory create_resolver 2).1 = Status.ok ∧
      (reserve_library_memory (reserve_library_memory create_resolver 1).2 3).1 =
        Status.alreadyReserved ∧
      create_resolver.reserved = none ∧
      Status.notReserved.code ≠ 0 ∧ Status.alreadyReserved.code ≠ 0) :=
  ⟨⟨by decide, by decide⟩,
   c4_reservation_protocol create_resolver (reserve_library_memory create_resolver 1).2
     4096 16 2 3 none none failingReader (by decide) (by decide)⟩

/-- C5 counterexample: the claim quantifies over every resolver, but on a
resolver with no reservation an add_library_metadata call whose read primitive
fails returns NotReservedError, not RemoteReadError — reservation checking
precedes the remote read. -/
theorem c5_counterexample :
    (add_library_metadata failingReader create_resolver 4096 16).1 = Status.notReserved ∧
    Status.notReserved ≠ Status.remoteRead ∧
    failingReader.readMeta 16 = none := by decide

/-- C5 (amended): for every resolver whose reservation succeeded and every
remote metadata address whose injected read primitive fails,
add_library_metadata returns RemoteReadError and leaves the resolver state —
its used count and registered libraries — unchanged. -/
theorem c5_remote_read_atomic (r : Resolver) (reader : RemoteReader) (b a : Nat)
    (h : (r.reserved).isSome = true) (hm : reader.readMeta a = none) :
    add_library_metadata reader r b a = (Status.remoteRead, r) := by
  unfold add_library_metadata
  cases hr : r.reserved with
  | none => rw [hr] at h; exact absurd h (by simp)
  | some cap =>
    rw [hm]
    rfl

/-- Witness for C5: a reserved resolver and the always-failing reader — the
call returns RemoteReadError with the state unchanged. -/
theorem c5_witness :
    ((((reserve_library_memory create_resolver 1).2.reserved).isSome = true) ∧
      failingReader.readMeta 16 = none) ∧
    add_library_metadata failingReader (reserve_library_memory create_resolver 1).2 4096 16 =
      (Status.remoteRead, (reserve_library_memory create_resolver 1).2) :=
  ⟨⟨by decide, by decide⟩,
   c5_remote_read_atomic (reserve_library_memory create_resolver 1).2 failingReader 4096 16
     (by decide) (by decide)⟩

/-- C6: after move_resolver, the source equals the freshly created resolver
(used count and reserved count both zero, safely destructible), and the
destination answers every lookup_symbol query with exactly the address the
source would have returned before the move. -/
theorem c6_move_semantics (d s : Resolver) (sym : List Nat) (len : Nat) :
    (move_resolver d s).2 = create_resolver ∧
    (move_resolver d s).2.libraries.length = 0 ∧
    (move_resolver d s).2.reserved.getD 0 = 0 ∧
    (lookup_symbol (move_resolver d s).1 sym len).1 = (lookup_symbol s sym len).1 :=
  ⟨rfl, rfl, rfl, rfl⟩

/-- C7 counterexample: the claim is false as stated — a resolver whose
reservation was performed with capacity 1, used as the source of a move,
ends with no reservation at all, so its capacity does change under the
claim's operation set. -/
theorem c7_counterexample :
    (reserve_library_memory create_resolver 1).2.reserved = some 1 ∧
    (move_resolver create_resolver (reserve_library_memory create_resolver 1).2).2.reserved ≠
      some 1 := by decide

/-- C7 (amended): every reachable resolver state satisfies used count ≤
reserved capacity, and once a reservation has been performed its capacity is
unchanged by reserve, add_library, add_library_metadata and lookup_symbol;
move is the sole exception, transferring the reservation to the destination
and resetting the source. -/
theorem c7_invariants (r : Resolver) (c n b a len : Nat) (st : Option (List Elf64_Sym))
    (str : Option StrTab) (reader : RemoteReader) (sym : List Nat)
    (h : Reachable r) :
    r.libraries.length ≤ r.reserved.getD 0 ∧
    (r.reserved = some c →
      (reserve_library_memory r n).2.reserved = some c ∧
      (add_library r b st str).2.reserved = some c ∧
      (add_library_metadata reader r b a).2.reserved = some c ∧
      (lookup_symbol r sym len).2.reserved = some c) := by
  refine ⟨reachable_inv r h, fun hc => ⟨?_, ?_, ?_, hc⟩⟩
  · unfold reserve_library_memory
    rw [hc]
    exact hc
  · rw [add_library_reserved]
    exact hc
  · rw [add_library_metadata_reserved]
    exact hc

/-- Witness for C7: the reachable resolver obtained by reserving capacity 2
on a fresh resolver — its used count respects the capacity, and each non-move
operation leaves the capacity at 2. -/
theorem c7_witness :
    ((reserve_library_memory create_resolver 2).2.libraries.length ≤
      (reserve_library_memory create_resolver 2).2.reserved.getD 0) ∧
    ((reserve_library_memory (reserve_library_memory create_resolver 2).2 3).2.reserved =
        some 2 ∧
      (add_library (reserve_library_memory create_resolver 2).2 4096 none none).2.reserved =
        some 2 ∧
      (add_library_metadata failingReader (reserve_library_memory create_resolver 2).2
          4096 16).2.reserved = some 2 ∧
      (lookup_symbol (reserve_library_memory create_resolver 2).2 fooName 3).2.reserved =
        some 2) :=
  ⟨(c7_invariants (reserve_library_memory create_resolver 2).2 2 3 4096 16 3 none none
      failingReader fooName (Reachable.reserve create_resolver 2 Reachable.create)).1,
   (c7_invariants (reserve_library_memory create_resolver 2).2 2 3 4096 16 3 none none
      failingReader fooName (Reachable.reserve create_resolver 2 Reachable.create)).2
     (by decide)⟩

/-- C8: lookup_symbol never mutates the resolver — its post-state equals its
input for every query — and it reports absence only through the sentinel 0. -/
theorem c8_lookup_pure (r : Resolver) (sym : List Nat) (len : Nat) :
    (lookup_symbol r sym len).2 = r ∧
    ((∀ lib ∈ r.libraries, containsName lib (sym.take len) = false) →
      (lookup_symbol r sym len).1 = 0) :=
  ⟨rfl, fun h => lookupScan_eq_zero_of_absent (sym.take len) r.libraries h⟩

/-- Witness for C8: querying the absent name baz on the two-library sample
resolver leaves the state unchanged and returns 0. -/
theorem c8_witness :
    (∀ lib ∈ (buildResolver 2 sampleTriples).libraries,
      containsName lib (bazName.take 3) = false) ∧
    (lookup_symbol (buildResolver 2 sampleTriples) bazName 3).2 =
      buildResolver 2 sampleTriples ∧
    (lookup_symbol (buildResolver 2 sampleTriples) bazName 3).1 = 0 :=
  ⟨by decide, (c8_lookup_pure (buildResolver 2 sampleTriples) bazName 3).1,
   (c8_lookup_pure (buildResolver 2 sampleTriples) bazName 3).2 (by decide)⟩

/-- C9: the ManagedResolver wrapper called with length 0 returns exactly what
the C lookup_symbol returns when called with strlen of the name — a zero
length means measure the null-terminated name, never an empty-name query. -/
theorem c9_managed_zero_length (r : Resolver) (sym : List Nat) :
    ManagedResolver.lookup_symbol r sym 0 = lookup_symbol r sym (strlen sym) := by
  unfold ManagedResolver.lookup_symbol
  rw [if_pos rfl]

/-- C10: on a freshly created resolver, and on the source of any move, every
lookup_symbol query returns the defined no-match sentinel 0. -/
theorem c10_empty_resolver_lookup (sym : List Nat) (len : Nat) (d s : Resolver) :
    (lookup_symbol create_resolver sym len).1 = 0 ∧
    (lookup_symbol (move_resolver d s).2 sym len).1 = 0 :=
  ⟨rfl, rfl⟩

end NidResolver
